import Mathlib

/-!
Verification of the column-layout reconciliation and fuzzy-match verification
logic of fix_csv.py (CelesTLSH-Hashes).

Modelling conventions:
* A csv file's parsed content is a List (List String): the rows produced by
  Python's csv.reader (the header row first).  ReadResult.err models an
  exception raised while opening / reading / parsing a file.
* A normalization call returns a FileOutcome. write = some rows models the
  file being overwritten with those rows (csv.writer.writerows); write = none
  models no write, the file is left untouched.
* Python str.strip / str.startswith / single-character str.replace are
  modelled structurally over the character list of the string (pyStrip,
  pyStartsWith, pyReplaceChar); the source only ever strips ASCII whitespace
  and replaces the single character comma.
-/

namespace FixCsv

/-- Per-file status string reported by the normalization functions
("SUCCESS" / "SKIPPED" / "ERROR" in the Python source). -/
inductive Status
  | SUCCESS
  | SKIPPED
  | ERROR
deriving DecidableEq

/-- Result of opening and csv-parsing a file: either the parsed rows, or the
message of the exception raised while reading (I/O failure and similar). -/
inductive ReadResult
  | ok (rows : List (List String))
  | err (msg : String)
deriving DecidableEq

/-- Outcome of one per-file normalization call.  The write component models
the side effect on the file; changed / status / message are the returned
triple; warnings lists the row numbers (enumerate starting at 2) of the
malformed data rows that were warned about and dropped. -/
structure FileOutcome where
  write : Option (List (List String))
  changed : Bool
  status : Status
  message : String
  warnings : List Nat
deriving DecidableEq

/-- Python str.strip() (no argument): remove leading and trailing whitespace.
Modelled over the character list; the data processed by the script is ASCII,
where Char.isWhitespace agrees with Python's notion. -/
def pyStrip (s : String) : String :=
  String.mk (((s.data.dropWhile Char.isWhitespace).reverse.dropWhile
    Char.isWhitespace).reverse)

/-- Python s.startswith(p). -/
def pyStartsWith (s p : String) : Bool :=
  p.data.isPrefixOf s.data

/-- Python s.replace(a, b) for a single-character pattern and replacement,
the only form the source uses (replace(',', ';')). -/
def pyReplaceChar (s : String) (a b : Char) : String :=
  String.mk (s.data.map (fun c => if c = a then b else c))

/-- The canonical 11-column header HEADER_11_COL of fix_csv.py. -/
def HEADER_11_COL : List String :=
  ["Repo Name", "File Name", "File Type", "Release Version", "TLSH Hash",
   "Commit_Distance", "Lines Changed", "SHA256 Hash", "Imphash",
   "Date Added", "Intel"]

/-- The 8-to-11-column remapping applied to each accepted legacy malware row:
new_row = [row[0], row[1], 'N/A', row[2], row[3], 'N/A', 'N/A',
row[4], row[5], row[6], row[7]].  The Python code indexes row[0]..row[7]
under the guard len(row) == 8, so the getD defaults are never consulted at
the call sites. -/
def mapMalwareRow (row : List String) : List String :=
  [row.getD 0 "", row.getD 1 "", "N/A", row.getD 2 "", row.getD 3 "",
   "N/A", "N/A", row.getD 4 "", row.getD 5 "", row.getD 6 "", row.getD 7 ""]

/-- The row loop of normalize_malware_csv: rows of width 8 are remapped, all
other rows are dropped with a warning naming their row number (enumerate
with start=2).  Returns (accepted remapped rows, warned row numbers). -/
def fixMalwareRows (i : Nat) : List (List String) → List (List String) × List Nat
  | [] => ([], [])
  | r :: rs =>
    let rest := fixMalwareRows (i + 1) rs
    if r.length = 8 then (mapMalwareRow r :: rest.1, rest.2)
    else (rest.1, i :: rest.2)

/-- first_row_len of normalize_malware_csv: len(data_rows[0]) if data_rows
else 0. -/
def firstRowLen : List (List String) → Nat
  | [] => 0
  | r :: _ => r.length

/-- normalize_malware_csv of fix_csv.py.  The header cells are stripped on
read; data rows are taken as parsed. -/
def normalize_malware_csv (filePath : String) (input : ReadResult) : FileOutcome :=
  match input with
  | .err e =>
    ⟨none, false, .ERROR, "An unexpected error occurred: " ++ e, []⟩
  | .ok [] =>
    ⟨none, false, .SKIPPED, "File \x27" ++ filePath ++ "\x27 is empty.", []⟩
  | .ok (rawHeader :: dataRows) =>
    let header := rawHeader.map pyStrip
    let headerLen := header.length
    let firstRowLen := firstRowLen dataRows
    if headerLen = 11 ∧ firstRowLen = 11 then
      ⟨none, false, .SKIPPED, "File is already in the correct format.", []⟩
    else if headerLen = 8 ∨ (headerLen = 11 ∧ firstRowLen = 8) then
      let action := if headerLen = 11 then "Fixed" else "Updated"
      let fixed := fixMalwareRows 2 dataRows
      ⟨some (HEADER_11_COL :: fixed.1), true, .SUCCESS,
        "File was successfully " ++ action ++ ".", fixed.2⟩
    else
      ⟨none, false, .SKIPPED,
        "File has an unrecognized malware format (Header: " ++
          toString headerLen ++ ", Row: " ++ toString firstRowLen ++ ").", []⟩

/-- The 10-to-11-column remapping applied to each accepted attack tool row:
file_type = row[2].replace(',', ';') and
new_row = [row[0], row[1], file_type, row[3], row[4], row[5], 'N/A',
row[6], row[7], row[8], row[9]].  As with mapMalwareRow, the indices are
guarded by len(row) == 10 at the call site. -/
def mapAttackRow (row : List String) : List String :=
  [row.getD 0 "", row.getD 1 "", pyReplaceChar (row.getD 2 "") ',' ';',
   row.getD 3 "", row.getD 4 "", row.getD 5 "", "N/A",
   row.getD 6 "", row.getD 7 "", row.getD 8 "", row.getD 9 ""]

/-- The row loop of normalize_attack_tool_csv: rows of width 10 are remapped,
all other rows are dropped with a warning naming their row number. -/
def fixAttackRows (i : Nat) : List (List String) → List (List String) × List Nat
  | [] => ([], [])
  | r :: rs =>
    let rest := fixAttackRows (i + 1) rs
    if r.length = 10 then (mapAttackRow r :: rest.1, rest.2)
    else (rest.1, i :: rest.2)

/-- normalize_attack_tool_csv of fix_csv.py. -/
def normalize_attack_tool_csv (filePath : String) (input : ReadResult) : FileOutcome :=
  match input with
  | .err e =>
    ⟨none, false, .ERROR, "An unexpected error occurred: " ++ e, []⟩
  | .ok [] =>
    ⟨none, false, .SKIPPED, "File \x27" ++ filePath ++ "\x27 is empty.", []⟩
  | .ok (rawHeader :: dataRows) =>
    let header := rawHeader.map pyStrip
    if header.length = 10 then
      let fixed := fixAttackRows 2 dataRows
      ⟨some (HEADER_11_COL :: fixed.1), true, .SUCCESS,
        "File was successfully fixed.", fixed.2⟩
    else
      ⟨none, false, .SKIPPED, "File is not a 10-column attack tool CSV.", []⟩

/-- Last index at which key occurs in names, if any.  This is the index whose
cell decides the value of d[key] when Python builds d = dict(zip(names, row))
and then pads the keys names[len(row):] with restval (None): in both phases a
later assignment to the same key overwrites an earlier one, so the value of
key is determined by its last occurrence in names. -/
def lastIdxOf : List String → String → Option Nat
  | [], _ => none
  | a :: as, key =>
    match lastIdxOf as key with
    | some j => some (j + 1)
    | none => if a = key then some 0 else none

/-- Value of row_dict.get(key, default) for a row produced by csv.DictReader
with fieldnames = names.  Outer none: key is not among the fieldnames at all,
so dict.get falls back to its default.  some none: the key is present but its
value is restval = None (the row was shorter than the fieldnames).
some (some v): the key is present with the string cell v. -/
def dictGet (names row : List String) (key : String) : Option (Option String) :=
  match lastIdxOf names key with
  | none => none
  | some j => some (row.get? j)

/-- Result of the row loop of verify_and_match_hashes: either an exception
escaped to the outer handler (ScanOutcome.exc), or the loop completed with
the final value of matches_found. -/
inductive ScanOutcome
  | exc
  | done (matched : Bool)
deriving DecidableEq

/-- The row loop of verify_and_match_hashes.  oracle models tlsh.diff,
returning none where tlsh.diff raises ValueError.  Per row:
csv.DictReader silently skips blank rows (row == []); otherwise
current_tlsh = row.get('TLSH Hash', '').strip().  When the stored value is
None (short row), None.strip() raises AttributeError, which the function's
outer except turns into (False, False): modelled as ScanOutcome.exc.
Rows whose stripped value does not start with 'T1' are skipped; oracle
failure (ValueError) skips the row; a distance strictly below max_distance
sets matches_found. -/
def scanRows (oracle : String → String → Option Int) (reference_tlsh : String)
    (max_distance : Int) (names : List String) :
    List (List String) → Bool → ScanOutcome
  | [], m => .done m
  | row :: rest, m =>
    if row.isEmpty then scanRows oracle reference_tlsh max_distance names rest m
    else
      match dictGet names row "TLSH Hash" with
      | none => scanRows oracle reference_tlsh max_distance names rest m
      | some none => .exc
      | some (some s) =>
        if pyStartsWith (pyStrip s) "T1" then
          match oracle reference_tlsh (pyStrip s) with
          | none => scanRows oracle reference_tlsh max_distance names rest m
          | some d =>
            scanRows oracle reference_tlsh max_distance names rest
              (m || decide (d < max_distance))
        else scanRows oracle reference_tlsh max_distance names rest m

/-- verify_and_match_hashes of fix_csv.py.  Returns (readable, matched).
For an empty file csv.DictReader has fieldnames = None and the membership
test raises TypeError, caught by the outer except: (False, False).  If
'TLSH Hash' is not among the fieldnames: (False, False).  If the row loop
raises: (False, False).  Otherwise (True, matches_found). -/
def verify_and_match_hashes (oracle : String → String → Option Int)
    (filePath : String) (input : ReadResult) (reference_tlsh : String)
    (max_distance : Int) : Bool × Bool :=
  match input with
  | .err _ => (false, false)
  | .ok [] => (false, false)
  | .ok (names :: dataRows) =>
    if lastIdxOf names "TLSH Hash" = none then (false, false)
    else
      match scanRows oracle reference_tlsh max_distance names dataRows false with
      | .exc => (false, false)
      | .done m => (true, m)

/-- A data row on which the row loop raises: the row is not blank (blank rows
are skipped by DictReader before the dict is built) and the value stored for
'TLSH Hash' is None because the row is shorter than the fingerprint column
position. -/
def rowExcB (names : List String) (row : List String) : Bool :=
  !row.isEmpty &&
    (match dictGet names row "TLSH Hash" with
     | some none => true
     | _ => false)

/-- A data row that records a match: its 'TLSH Hash' cell exists, its
stripped value starts with 'T1', the oracle succeeds on it and the returned
distance is strictly below max_distance. -/
def rowMatchesB (oracle : String → String → Option Int)
    (reference_tlsh : String) (max_distance : Int) (names : List String)
    (row : List String) : Bool :=
  match dictGet names row "TLSH Hash" with
  | some (some s) =>
    pyStartsWith (pyStrip s) "T1" &&
      (match oracle reference_tlsh (pyStrip s) with
       | some d => decide (d < max_distance)
       | none => false)
  | _ => false

/-- The conditions under which verify_and_match_hashes fails to read and scan
the file: the open/parse raised, the file is empty (fieldnames = None, so the
membership test raises TypeError), the 'TLSH Hash' column is absent from the
header, or some data row is shorter than the fingerprint column position
(its stored value is None and None.strip() raises). -/
def structuralReadFailureB (input : ReadResult) : Bool :=
  match input with
  | .err _ => true
  | .ok [] => true
  | .ok (names :: dataRows) =>
    decide (lastIdxOf names "TLSH Hash" = none) || dataRows.any (rowExcB names)

-- ---------------------------------------------------------------------------
-- The orchestrator (main) of fix_csv.py.
-- ---------------------------------------------------------------------------

/-- MALWARE_TEST_HASH of fix_csv.py. -/
def MALWARE_TEST_HASH : String :=
  "T1FE360823FC9710D6C67EE134C6A66732BF71745983317B836EA049666E1AFE46A3D300"

/-- ATTACK_TOOL_TEST_HASH of fix_csv.py. -/
def ATTACK_TOOL_TEST_HASH : String :=
  "T199A6337BB48D242BFA2A9736946084737E7E16E8D78B301229F5493A437D1B2F03745"

/-- DEFAULT_MAX_DISTANCE of fix_csv.py. -/
def DEFAULT_MAX_DISTANCE : Int := 50

/-- The command-line arguments of fix_csv.py that decide the control flow
modelled here.  testFlag is args.test. -/
structure Args where
  normalizeAttackTools : Bool
  testFlag : Bool
  maxDistance : Int
deriving DecidableEq

/-- The aggregate counters of main's per-file loop. -/
structure Counters where
  changed : Nat
  skipped : Nat
  passed : Nat
  failed : Nat
  files_with_matches : List String
deriving DecidableEq

/-- Result of one run of main: the process exit status, the final state of
every file, the list of files that were processed (read, possibly rewritten,
possibly verified), the aggregate counters and the diagnostic lines printed
outside the per-file loop. -/
structure RunResult where
  exitCode : Nat
  fs : String → ReadResult
  processed : List String
  counters : Counters
  output : List String

/-- The per-file loop of main: normalize each file with the selected function,
apply its write to the file system, update the changed/skipped counters
(elif semantics: a changed file is never also counted as skipped), and when
args.test is set, re-read the file and run verify_and_match_hashes on it,
updating passed/failed and files_with_matches. -/
def runLoop (oracle : String → String → Option Int) (useAttack testF : Bool)
    (reference_tlsh : String) (max_distance : Int) :
    List String → (String → ReadResult) → Counters → List String →
    (String → ReadResult) × Counters × List String
  | [], fs, cnt, processed => (fs, cnt, processed)
  | path :: rest, fs, cnt, processed =>
    let outcome :=
      if useAttack then normalize_attack_tool_csv path (fs path)
      else normalize_malware_csv path (fs path)
    let fs' := match outcome.write with
      | some rows => Function.update fs path (ReadResult.ok rows)
      | none => fs
    let cnt' : Counters :=
      if outcome.changed then { cnt with changed := cnt.changed + 1 }
      else if outcome.status = Status.SKIPPED then
        { cnt with skipped := cnt.skipped + 1 }
      else cnt
    let cnt'' : Counters :=
      if testF then
        let vr := verify_and_match_hashes oracle path (fs' path)
          reference_tlsh max_distance
        let cntV :=
          if vr.1 then { cnt' with passed := cnt'.passed + 1 }
          else { cnt' with failed := cnt'.failed + 1 }
        if vr.2 then
          { cntV with files_with_matches := cntV.files_with_matches ++ [path] }
        else cntV
      else cnt'
    runLoop oracle useAttack testF reference_tlsh max_distance rest fs' cnt''
      (processed ++ [path])

/-- main of fix_csv.py, modelled from the point where the arguments have been
parsed.  tlshAvailable is the module-level TLSH_AVAILABLE flag; files is the
list of csv files to process (the -f / recursive-scan selection); fs maps
each path to the result of reading it.  The script never calls sys.exit:
every return from main is a plain return, after which the interpreter exits
with status 0, so exitCode is 0 on every path. -/
def main (tlshAvailable : Bool) (oracle : String → String → Option Int)
    (args : Args) (files : List String) (fs : String → ReadResult) : RunResult :=
  if args.testFlag && !tlshAvailable then
    { exitCode := 0, fs := fs, processed := [],
      counters := ⟨0, 0, 0, 0, []⟩,
      output :=
        ["[ERROR] The \x27--test\x27 feature requires the \x27tlsh\x27 library.",
         "Please install it by running: pip install tlsh"] }
  else
    let reference_tlsh :=
      if args.normalizeAttackTools then ATTACK_TOOL_TEST_HASH
      else MALWARE_TEST_HASH
    if files.isEmpty then
      { exitCode := 0, fs := fs, processed := [],
        counters := ⟨0, 0, 0, 0, []⟩,
        output := ["No CSV files found to process."] }
    else
      let res := runLoop oracle args.normalizeAttackTools args.testFlag
        reference_tlsh args.maxDistance files fs ⟨0, 0, 0, 0, []⟩ []
      { exitCode := 0, fs := res.1, processed := res.2.2,
        counters := res.2.1, output := [] }

-- ---------------------------------------------------------------------------
-- Concrete example data used by witnesses and counterexamples.
-- ---------------------------------------------------------------------------

/-- An 8-column legacy malware header. -/
def hdr8Ex : List String :=
  ["Repo Name", "File Name", "Release Version", "TLSH Hash", "SHA256 Hash",
   "Imphash", "Date Added", "Intel"]

/-- The 8-wide legacy malware data row of the field-integrity example. -/
def row8Ex : List String :=
  ["repoA", "fileB", "v1.0", "T1HASH", "sha256x", "imphashY", "2024-01-01",
   "yes"]

/-- A 10-column attack tool header. -/
def hdr10Ex : List String :=
  ["Repo Name", "File Name", "File Type", "Release Version", "TLSH Hash",
   "Commit_Distance", "SHA256 Hash", "Imphash", "Date Added", "Intel"]

/-- A 10-wide attack tool data row whose File Type field contains a raw
comma. -/
def row10Ex : List String :=
  ["repoC", "fileD", "exe,dll", "v2.0", "T1HASH2", "3", "sha256y",
   "imphashZ", "2024-02-02", "no"]

/-- A 7-column header no mode recognizes. -/
def hdr7Ex : List String :=
  ["a", "b", "c", "d", "e", "f", "g"]

/-- A canonical 11-wide data row whose TLSH Hash cell (index 4) is T1AAA. -/
def row11Ex : List String :=
  ["r", "f", "t", "v", "T1AAA", "c", "l", "s", "i", "d", "x"]

/-- A concrete distance oracle: distance 0 between equal fingerprints, 100
otherwise, never failing. -/
def oracleEx : String → String → Option Int :=
  fun a b => if a = b then some 0 else some 100

/-- A concrete file system mapping every path to an empty file. -/
def fsEx : String → ReadResult :=
  fun _ => .ok []

-- ---------------------------------------------------------------------------
-- Row-loop lemmas.
-- ---------------------------------------------------------------------------

theorem fixMalwareRows_spec (i : Nat) (l : List (List String)) :
    (fixMalwareRows i l).1 =
      (l.filter (fun r => r.length = 8)).map mapMalwareRow ∧
    (fixMalwareRows i l).2.length +
      (l.filter (fun r => r.length = 8)).length = l.length := by
  induction l generalizing i with
  | nil => simp [fixMalwareRows]
  | cons r rs ih =>
    have h1 := (ih (i + 1)).1
    have h2 := (ih (i + 1)).2
    by_cases h : r.length = 8 <;>
      simp [fixMalwareRows, h, h1] <;> omega

theorem fixAttackRows_spec (i : Nat) (l : List (List String)) :
    (fixAttackRows i l).1 =
      (l.filter (fun r => r.length = 10)).map mapAttackRow ∧
    (fixAttackRows i l).2.length +
      (l.filter (fun r => r.length = 10)).length = l.length := by
  induction l generalizing i with
  | nil => simp [fixAttackRows]
  | cons r rs ih =>
    have h1 := (ih (i + 1)).1
    have h2 := (ih (i + 1)).2
    by_cases h : r.length = 10 <;>
      simp [fixAttackRows, h, h1] <;> omega

theorem mapMalwareRow_length (r : List String) : (mapMalwareRow r).length = 11 :=
  rfl

theorem fixMalwareRows_mem_length (i : Nat) (l : List (List String)) :
    ∀ x ∈ (fixMalwareRows i l).1, x.length = 11 := by
  intro x hx
  rw [(fixMalwareRows_spec i l).1] at hx
  obtain ⟨r, _, rfl⟩ := List.mem_map.mp hx
  exact mapMalwareRow_length r

-- ---------------------------------------------------------------------------
-- Claim theorems.
-- ---------------------------------------------------------------------------

/-- C1 (counterexample): a file whose header row has width 11 and which has
no data rows at all is not given the already-correct message: first_row_len
is 0, so the file falls into the unrecognized branch and the message names
(Header: 11, Row: 0).  This refutes the claim that such a file is classified
Canonical11 with the already-correct message. -/
theorem c1_counterexample_header_only :
    normalize_malware_csv "f.csv" (.ok [HEADER_11_COL]) =
      ⟨none, false, .SKIPPED,
        "File has an unrecognized malware format (Header: 11, Row: 0).", []⟩ ∧
    (normalize_malware_csv "f.csv" (.ok [HEADER_11_COL])).message ≠
      "File is already in the correct format." := by
  constructor
  · decide
  · decide

/-- C1 (amended): with header width 11, a file whose first data row also has
width 11 is skipped with the already-correct message and left untouched; a
file with no data rows at all is likewise left untouched with
(changed=false, SKIPPED), but through the unrecognized branch, with the
message naming (Header: 11, Row: 0) instead of the already-correct one. -/
theorem c1_canonical_skip (path : String) (header : List String)
    (data : List (List String)) (h11 : header.length = 11) :
    (∀ r rs, data = r :: rs → r.length = 11 →
      normalize_malware_csv path (.ok (header :: data)) =
        ⟨none, false, .SKIPPED, "File is already in the correct format.", []⟩) ∧
    (data = [] →
      normalize_malware_csv path (.ok (header :: data)) =
        ⟨none, false, .SKIPPED,
          "File has an unrecognized malware format (Header: 11, Row: 0).",
          []⟩) := by
  constructor
  · rintro r rs rfl hr
    simp [normalize_malware_csv, firstRowLen, h11, hr]
  · rintro rfl
    simp [normalize_malware_csv, firstRowLen, h11]
    decide

/-- C1 (witness for the amended theorem). -/
theorem c1_witness :
    HEADER_11_COL.length = 11 ∧ row11Ex.length = 11 ∧
    normalize_malware_csv "a.csv" (.ok [HEADER_11_COL, row11Ex]) =
      ⟨none, false, .SKIPPED, "File is already in the correct format.", []⟩ :=
  ⟨by decide, by decide,
    (c1_canonical_skip "a.csv" HEADER_11_COL [row11Ex] (by decide)).1
      row11Ex [] rfl (by decide)⟩

/-- C3: a file classified LegacyMalware8 (header width 8, or header width 11
with first data row width 8) is overwritten with the canonical 11-column
header followed by one remapped row per width-8 input data row in input
order, [a,b,c,d,e,f,g,h] becoming [a,b,N/A,c,d,N/A,N/A,e,f,g,h]; rows of any
other width are dropped, each with one warning; the call returns
(changed=true, SUCCESS). -/
theorem c3_legacy_malware_rewrite (path : String) (header : List String)
    (data : List (List String))
    (h : header.length = 8 ∨ (header.length = 11 ∧ firstRowLen data = 8)) :
    (normalize_malware_csv path (.ok (header :: data))).write =
      some (HEADER_11_COL ::
        (data.filter (fun r => r.length = 8)).map mapMalwareRow) ∧
    (normalize_malware_csv path (.ok (header :: data))).changed = true ∧
    (normalize_malware_csv path (.ok (header :: data))).status = .SUCCESS ∧
    (normalize_malware_csv path (.ok (header :: data))).warnings.length +
      (data.filter (fun r => r.length = 8)).length = data.length ∧
    (∀ a b c d e f g k : String,
      mapMalwareRow [a, b, c, d, e, f, g, k] =
        [a, b, "N/A", c, d, "N/A", "N/A", e, f, g, k]) := by
  have hnc : ¬ (header.length = 11 ∧ firstRowLen data = 11) := by
    rcases h with h8 | ⟨h11, h8⟩ <;> omega
  have hfix := fixMalwareRows_spec 2 data
  rcases h with h8 | ⟨h11, hr8⟩
  · have hne : ¬ header.length = 11 := by omega
    simp [normalize_malware_csv, h8, hne, hfix.1, hfix.2, mapMalwareRow]
  · simp [normalize_malware_csv, h11, hr8, hnc, hfix.1, hfix.2, mapMalwareRow]

/-- C3 (witness): the field-integrity example row, in a file with an 8-column
header. -/
theorem c3_witness :
    (hdr8Ex.length = 8 ∨ (hdr8Ex.length = 11 ∧ firstRowLen [row8Ex] = 8)) ∧
    (normalize_malware_csv "m.csv" (.ok [hdr8Ex, row8Ex])).write =
      some (HEADER_11_COL ::
        ([row8Ex].filter (fun r => r.length = 8)).map mapMalwareRow) ∧
    (normalize_malware_csv "m.csv" (.ok [hdr8Ex, row8Ex])).changed = true ∧
    (normalize_malware_csv "m.csv" (.ok [hdr8Ex, row8Ex])).status = .SUCCESS :=
  ⟨Or.inl (by decide),
    ((c3_legacy_malware_rewrite "m.csv" hdr8Ex [row8Ex] (Or.inl (by decide))).1),
    ((c3_legacy_malware_rewrite "m.csv" hdr8Ex [row8Ex] (Or.inl (by decide))).2.1),
    ((c3_legacy_malware_rewrite "m.csv" hdr8Ex [row8Ex] (Or.inl (by decide))).2.2.1)⟩

/-- C4: a file classified AttackTool10 (header width 10) has each width-10
data row rewritten by replacing every comma in the File Type field (index 2)
with a semicolon and reassembling the row with the N/A placeholder inserted
at position 6, no other field altered; rows of other widths are dropped,
each with one warning. -/
theorem c4_attack_tool_rewrite (path : String) (header : List String)
    (data : List (List String)) (h : header.length = 10) :
    (normalize_attack_tool_csv path (.ok (header :: data))).write =
      some (HEADER_11_COL ::
        (data.filter (fun r => r.length = 10)).map mapAttackRow) ∧
    (normalize_attack_tool_csv path (.ok (header :: data))).changed = true ∧
    (normalize_attack_tool_csv path (.ok (header :: data))).status = .SUCCESS ∧
    (normalize_attack_tool_csv path (.ok (header :: data))).warnings.length +
      (data.filter (fun r => r.length = 10)).length = data.length ∧
    (∀ r0 r1 r2 r3 r4 r5 r6 r7 r8 r9 : String,
      mapAttackRow [r0, r1, r2, r3, r4, r5, r6, r7, r8, r9] =
        [r0, r1, pyReplaceChar r2 ',' ';', r3, r4, r5, "N/A",
         r6, r7, r8, r9]) := by
  have hfix := fixAttackRows_spec 2 data
  simp [normalize_attack_tool_csv, h, hfix.1, hfix.2, mapAttackRow]

/-- C4 (witness): the delimiter fix-up example: File Type field exe,dll
becomes exe;dll. -/
theorem c4_witness :
    hdr10Ex.length = 10 ∧
    (normalize_attack_tool_csv "t.csv" (.ok [hdr10Ex, row10Ex])).write =
      some (HEADER_11_COL ::
        ([row10Ex].filter (fun r => r.length = 10)).map mapAttackRow) ∧
    mapAttackRow row10Ex =
      ["repoC", "fileD", "exe;dll", "v2.0", "T1HASH2", "3", "N/A", "sha256y",
       "imphashZ", "2024-02-02", "no"] :=
  ⟨by decide,
    (c4_attack_tool_rewrite "t.csv" hdr10Ex [row10Ex] (by decide)).1,
    by decide⟩

/-- C8: a file whose layout the active mode does not recognize is left
untouched (no write) and the call returns (changed=false, SKIPPED); in
malware mode the message names the observed header and first-row widths. -/
theorem c8_unrecognized_untouched (path : String) (header : List String)
    (data : List (List String)) :
    (¬ (header.length = 11 ∧ firstRowLen data = 11) →
     ¬ (header.length = 8 ∨ (header.length = 11 ∧ firstRowLen data = 8)) →
      normalize_malware_csv path (.ok (header :: data)) =
        ⟨none, false, .SKIPPED,
          "File has an unrecognized malware format (Header: " ++
            toString header.length ++ ", Row: " ++
            toString (firstRowLen data) ++ ").", []⟩) ∧
    (¬ header.length = 10 →
      normalize_attack_tool_csv path (.ok (header :: data)) =
        ⟨none, false, .SKIPPED, "File is not a 10-column attack tool CSV.",
          []⟩) := by
  constructor
  · intro h1 h2
    simp [normalize_malware_csv, h1, h2]
  · intro h10
    simp [normalize_attack_tool_csv, h10]

/-- C8 (witness): a file with header width 7 is untouched in both modes and
the malware-mode message names width 7. -/
theorem c8_witness :
    (¬ (hdr7Ex.length = 11 ∧ firstRowLen [row8Ex] = 11)) ∧
    (¬ (hdr7Ex.length = 8 ∨ (hdr7Ex.length = 11 ∧ firstRowLen [row8Ex] = 8))) ∧
    (¬ hdr7Ex.length = 10) ∧
    normalize_malware_csv "u.csv" (.ok [hdr7Ex, row8Ex]) =
      ⟨none, false, .SKIPPED,
        "File has an unrecognized malware format (Header: " ++
          toString hdr7Ex.length ++ ", Row: " ++
          toString (firstRowLen [row8Ex]) ++ ").", []⟩ ∧
    normalize_attack_tool_csv "u.csv" (.ok [hdr7Ex, row8Ex]) =
      ⟨none, false, .SKIPPED, "File is not a 10-column attack tool CSV.",
        []⟩ :=
  ⟨by decide, by decide, by decide,
    (c8_unrecognized_untouched "u.csv" hdr7Ex [row8Ex]).1 (by decide)
      (by decide),
    (c8_unrecognized_untouched "u.csv" hdr7Ex [row8Ex]).2 (by decide)⟩

/-- C9: each per-file normalization returns a (changed, status, message)
triple on every input: a read that raises (I/O or unexpected failure) yields
(changed=false, ERROR, message) without a write, and an empty file (no
header row) yields (changed=false, SKIPPED) without a write.  Totality over
all other inputs is by construction of the two definitions. -/
theorem c9_total_outcomes (path e : String) :
    normalize_malware_csv path (.err e) =
      ⟨none, false, .ERROR, "An unexpected error occurred: " ++ e, []⟩ ∧
    normalize_attack_tool_csv path (.err e) =
      ⟨none, false, .ERROR, "An unexpected error occurred: " ++ e, []⟩ ∧
    normalize_malware_csv path (.ok []) =
      ⟨none, false, .SKIPPED, "File \x27" ++ path ++ "\x27 is empty.", []⟩ ∧
    normalize_attack_tool_csv path (.ok []) =
      ⟨none, false, .SKIPPED, "File \x27" ++ path ++ "\x27 is empty.", []⟩ :=
  ⟨rfl, rfl, rfl, rfl⟩

/-- C10: in attack-tool mode, any file whose header has exactly 10 cells is
rewritten and the call returns (changed=true, SUCCESS) even when no data row
survives; with zero accepted rows the file is overwritten with the canonical
11-column header alone. -/
theorem c10_attack_always_writes (path : String) (header : List String)
    (data : List (List String)) (h : header.length = 10) :
    (normalize_attack_tool_csv path (.ok (header :: data))).changed = true ∧
    (normalize_attack_tool_csv path (.ok (header :: data))).status = .SUCCESS ∧
    (normalize_attack_tool_csv path (.ok (header :: data))).write =
      some (HEADER_11_COL ::
        (data.filter (fun r => r.length = 10)).map mapAttackRow) ∧
    ((∀ r ∈ data, ¬ r.length = 10) →
      (normalize_attack_tool_csv path (.ok (header :: data))).write =
        some [HEADER_11_COL]) := by
  have hfix := fixAttackRows_spec 2 data
  refine ⟨?_, ?_, ?_, ?_⟩
  · simp [normalize_attack_tool_csv, h]
  · simp [normalize_attack_tool_csv, h]
  · simp [normalize_attack_tool_csv, h, hfix.1]
  · intro hall
    have hnil : data.filter (fun r => r.length = 10) = [] := by
      simp [List.filter_eq_nil_iff]
      intro r hr
      exact hall r hr
    simp [normalize_attack_tool_csv, h, hfix.1, hnil]

/-- C10 (witness): header width 10 with a single malformed (width-2) data
row: the file is rewritten to the canonical header alone, changed=true,
SUCCESS. -/
theorem c10_witness :
    hdr10Ex.length = 10 ∧ (∀ r ∈ [["x", "y"]], ¬ r.length = 10) ∧
    (normalize_attack_tool_csv "t2.csv" (.ok [hdr10Ex, ["x", "y"]])).changed
      = true ∧
    (normalize_attack_tool_csv "t2.csv" (.ok [hdr10Ex, ["x", "y"]])).write =
      some [HEADER_11_COL] :=
  ⟨by decide, by decide,
    (c10_attack_always_writes "t2.csv" hdr10Ex [["x", "y"]] (by decide)).1,
    (c10_attack_always_writes "t2.csv" hdr10Ex [["x", "y"]] (by decide)).2.2.2
      (by decide)⟩

/-- C5: malware normalization is idempotent.  For any parsed file content,
run the normalizer, apply its write (if any) to obtain the content after the
first run, and run the normalizer again on that content: the second run
returns status SKIPPED with changed=false and performs no write, so the file
bytes after the second run are identical to those after the first. -/
theorem c5_malware_idempotent (path path2 : String)
    (rows : List (List String)) :
    (normalize_malware_csv path2
      (.ok ((normalize_malware_csv path (.ok rows)).write.getD rows))).status
        = .SKIPPED ∧
    (normalize_malware_csv path2
      (.ok ((normalize_malware_csv path (.ok rows)).write.getD rows))).changed
        = false ∧
    (normalize_malware_csv path2
      (.ok ((normalize_malware_csv path (.ok rows)).write.getD rows))).write
        = none := by
  match rows with
  | [] =>
    simp [normalize_malware_csv]
  | header :: data =>
    by_cases hc1 : header.length = 11 ∧ firstRowLen data = 11
    · simp [normalize_malware_csv, hc1]
    · by_cases hc2 : header.length = 8 ∨
        (header.length = 11 ∧ firstRowLen data = 8)
      · have hw :
            (normalize_malware_csv path (.ok (header :: data))).write =
              some (HEADER_11_COL :: (fixMalwareRows 2 data).1) := by
          rcases hc2 with h8 | ⟨h11, hr8⟩
          · have hne : ¬ header.length = 11 := by omega
            simp [normalize_malware_csv, h8, hne]
          · simp [normalize_malware_csv, h11, hr8, hc1]
        rw [hw]
        match hfix : (fixMalwareRows 2 data).1 with
        | [] =>
          simp [normalize_malware_csv, firstRowLen, HEADER_11_COL]
        | m :: ms =>
          have hm : m.length = 11 :=
            fixMalwareRows_mem_length 2 data m
              (by rw [hfix]; exact List.mem_cons_self m ms)
          simp [normalize_malware_csv, firstRowLen, HEADER_11_COL, hm]
      · simp [normalize_malware_csv, hc1, hc2]

theorem rowMatchesB_nil (oracle : String → String → Option Int)
    (reference_tlsh : String) (max_distance : Int) (names : List String) :
    rowMatchesB oracle reference_tlsh max_distance names [] = false := by
  cases hli : lastIdxOf names "TLSH Hash" <;>
    simp [rowMatchesB, dictGet, hli]

/-- The row loop of verify_and_match_hashes either raises on the first data
row stored with a None fingerprint value, or completes with matches_found
true exactly when the accumulator was already true or some row matches. -/
theorem scanRows_eq (oracle : String → String → Option Int)
    (reference_tlsh : String) (max_distance : Int) (names : List String)
    (rows : List (List String)) (m : Bool) :
    scanRows oracle reference_tlsh max_distance names rows m =
      if rows.any (rowExcB names) then .exc
      else .done
        (m || rows.any (rowMatchesB oracle reference_tlsh max_distance names)) := by
  induction rows generalizing m with
  | nil => simp [scanRows]
  | cons r rest ih =>
    by_cases hre : r.isEmpty
    · have hr : r = [] := by simpa using hre
      subst hr
      simp [scanRows, rowExcB, rowMatchesB_nil, ih]
    · match hdg : dictGet names r "TLSH Hash" with
      | none =>
        simp [scanRows, hre, hdg, rowExcB, rowMatchesB, ih]
      | some none =>
        simp [scanRows, hre, hdg, rowExcB]
      | some (some s) =>
        by_cases hsw : pyStartsWith (pyStrip s) "T1"
        · match ho : oracle reference_tlsh (pyStrip s) with
          | none =>
            simp [scanRows, hre, hdg, hsw, ho, rowExcB, rowMatchesB, ih]
          | some d =>
            simp [scanRows, hre, hdg, hsw, ho, rowExcB, rowMatchesB, ih,
              Bool.or_assoc]
        · simp [scanRows, hre, hdg, hsw, rowExcB, rowMatchesB, ih]

/-- C7: verify_and_match_hashes returns (false, false) exactly when the file
cannot be structurally read and scanned: the open/parse raised, the file is
empty, the TLSH Hash column is absent from the header, or a data row is too
short to carry a value under the fingerprint column (its stored value is
None and stripping it raises, see structuralReadFailureB).  Whenever the
file is opened and scanned to completion it returns (true, m) with m true
exactly when some data row matched. -/
theorem c7_readable_characterization (oracle : String → String → Option Int)
    (path reference_tlsh : String) (max_distance : Int) (input : ReadResult) :
    (verify_and_match_hashes oracle path input reference_tlsh max_distance =
        (false, false) ↔ structuralReadFailureB input = true) ∧
    (∀ names dataRows, input = .ok (names :: dataRows) →
      structuralReadFailureB input = false →
      verify_and_match_hashes oracle path input reference_tlsh max_distance =
        (true,
          dataRows.any
            (rowMatchesB oracle reference_tlsh max_distance names))) := by
  match input with
  | .err e =>
    exact ⟨by simp [verify_and_match_hashes, structuralReadFailureB],
      by intro names dataRows h; cases h⟩
  | .ok [] =>
    exact ⟨by simp [verify_and_match_hashes, structuralReadFailureB],
      by intro names dataRows h; cases h⟩
  | .ok (names :: dataRows) =>
    by_cases hli : lastIdxOf names "TLSH Hash" = none
    · constructor
      · simp [verify_and_match_hashes, structuralReadFailureB, hli]
      · intro names' dataRows' heq hsf
        injection heq with heq'
        obtain ⟨rfl, rfl⟩ : names' = names ∧ dataRows' = dataRows := by
          cases heq'; exact ⟨rfl, rfl⟩
        simp [structuralReadFailureB, hli] at hsf
    · by_cases hexc : dataRows.any (rowExcB names) = true
      · constructor
        · simp [verify_and_match_hashes, structuralReadFailureB, hli, hexc,
            scanRows_eq]
        · intro names' dataRows' heq hsf
          injection heq with heq'
          obtain ⟨rfl, rfl⟩ : names' = names ∧ dataRows' = dataRows := by
            cases heq'; exact ⟨rfl, rfl⟩
          simp [structuralReadFailureB, hexc] at hsf
      · constructor
        · simp [verify_and_match_hashes, structuralReadFailureB, hli, hexc,
            scanRows_eq]
        · intro names' dataRows' heq hsf
          injection heq with heq'
          obtain ⟨rfl, rfl⟩ : names' = names ∧ dataRows' = dataRows := by
            cases heq'; exact ⟨rfl, rfl⟩
          simp [verify_and_match_hashes, hli, hexc, scanRows_eq]

/-- C7 (witness): a canonical file with one matching row is readable and
matched; its scan has no structural failure. -/
theorem c7_witness :
    structuralReadFailureB (.ok [HEADER_11_COL, row11Ex]) = false ∧
    verify_and_match_hashes oracleEx "v.csv" (.ok [HEADER_11_COL, row11Ex])
      "T1AAA" 50 =
      (true, [row11Ex].any (rowMatchesB oracleEx "T1AAA" 50 HEADER_11_COL)) ∧
    [row11Ex].any (rowMatchesB oracleEx "T1AAA" 50 HEADER_11_COL) = true :=
  ⟨by decide,
    (c7_readable_characterization oracleEx "v.csv" "T1AAA" 50
      (.ok [HEADER_11_COL, row11Ex])).2 HEADER_11_COL [row11Ex] rfl
      (by decide),
    by decide⟩

/-- C6 (code_bug evaluation): in a canonical-headed file, a data row that
matches (its TLSH Hash cell starts with T1, the oracle succeeds with
distance 0 below the threshold 50) followed by a width-2 row makes the whole
call return (false, false): csv.DictReader stores restval None for the
missing fingerprint cell of the short row, None.strip() raises
AttributeError and the outer except discards the already-recorded match.
Without the short row the same file returns (true, true).  The claim (and
the spec, and the intent visible in the source's
row.get('TLSH Hash', '') default) says absent fingerprints are skipped
silently without failing the file and that the matched flag is true iff some
row matched. -/
theorem c6_short_row_aborts_file :
    verify_and_match_hashes oracleEx "f.csv"
      (.ok [HEADER_11_COL, row11Ex, ["x", "y"]]) "T1AAA" 50 =
      (false, false) ∧
    rowMatchesB oracleEx "T1AAA" 50 HEADER_11_COL row11Ex = true ∧
    verify_and_match_hashes oracleEx "f.csv"
      (.ok [HEADER_11_COL, row11Ex]) "T1AAA" 50 = (true, true) :=
  ⟨by decide, by decide, by decide⟩

/-- C2 (counterexample to the non-zero-outcome part): with the tlsh library
unavailable and --test requested, main prints the diagnostic and returns;
the script never calls sys.exit, so the interpreter exits with status 0 --
not a non-zero outcome.  No file is processed. -/
theorem c2_counterexample_exit_zero :
    (main false oracleEx ⟨false, true, 50⟩ ["a.csv"] fsEx).exitCode = 0 ∧
    (main false oracleEx ⟨false, true, 50⟩ ["a.csv"] fsEx).processed = [] :=
  ⟨rfl, rfl⟩

/-- C2 (amended): whenever verification is requested and the tlsh library is
unavailable, the whole run aborts before touching any file -- no file is
read, rewritten or verified, the file system is returned unchanged, all
counters are zero -- with a clear diagnostic naming the tlsh library; the
process outcome, however, is exit status 0, not a non-zero one. -/
theorem c2_abort_before_work (oracle : String → String → Option Int)
    (args : Args) (files : List String) (fs : String → ReadResult)
    (htest : args.testFlag = true) :
    main false oracle args files fs =
      ⟨0, fs, [], ⟨0, 0, 0, 0, []⟩,
        ["[ERROR] The \x27--test\x27 feature requires the \x27tlsh\x27 library.",
         "Please install it by running: pip install tlsh"]⟩ := by
  simp [main, htest]

/-- C2 (witness for the amended theorem). -/
theorem c2_witness :
    (Args.mk false true 50).testFlag = true ∧
    main false oracleEx ⟨false, true, 50⟩ ["a.csv"] fsEx =
      ⟨0, fsEx, [], ⟨0, 0, 0, 0, []⟩,
        ["[ERROR] The \x27--test\x27 feature requires the \x27tlsh\x27 library.",
         "Please install it by running: pip install tlsh"]⟩ :=
  ⟨rfl, c2_abort_before_work oracleEx ⟨false, true, 50⟩ ["a.csv"] fsEx rfl⟩

end FixCsv
